import Mathlib

/-!
Shallow embedding of `HuggingFace_Space_Files/app.py` (GazeTrack).

The program is a single pipeline `analyze_gaze_data : csv text → json text`:
parse a CSV into rows `(elapsedTime(seconds), x, y)`, derive statistics
(duration, per-step Euclidean distances, average/total movement, bounding-box
coverage, a speed-variance based stability), feed them to
`calculate_attention_score`, attach a label from `get_score_description`,
and serialise; any exception anywhere in the `try` body is caught and turned
into a failure payload `{score: 0, error: str(e), message: "Analysis failed"}`.

Modelling conventions:
* Python floats are modelled as real numbers (exact arithmetic).  IEEE-754
  edge behaviour (inf/NaN from a zero time delta, binary rounding of
  `round(x, 2)`) is outside this model; no theorem below depends on it.
* CSV parsing is performed by the external pandas library, so it is kept
  abstract: the pipeline is parametrised by a function
  `parse : String → Except String (List Sample)` standing for
  `pd.read_csv` plus the column accesses, returning either the row list or
  the exception text `str(e)`.  The `try/except` of the source is the
  `match` on that `Except` together with the fact that the remaining body is
  a total function.
* `int(x)` is Python truncation toward zero (`pyInt`); `round(x, 2)` is
  rounding to hundredths (`pyRound2`; Python breaks ties to even on binary
  floats, Mathlib's `round` breaks them upward — no theorem below evaluates
  `pyRound2` at a tie).
* `np.mean` / `np.std` (population standard deviation) / `np.diff` are
  spelled out on lists.
-/

/-- One parsed CSV row: columns `elapsedTime(seconds)`, `x`, `y`. -/
structure Sample where
  elapsedTime : ℝ
  x : ℝ
  y : ℝ

/-- `pandas.Series.max` on a non-empty column (the empty case is junk `0`
here; pandas would give NaN, and no theorem below uses it). -/
noncomputable def listMax : List ℝ → ℝ
  | [] => 0
  | v :: vs => vs.foldl max v

/-- `pandas.Series.min` on a non-empty column (empty case junk `0`, as in
`listMax`). -/
noncomputable def listMin : List ℝ → ℝ
  | [] => 0
  | v :: vs => vs.foldl min v

/-- `np.mean` of a list (sum divided by length). -/
noncomputable def npMean (l : List ℝ) : ℝ := l.sum / l.length

/-- `np.std` of a list: the population standard deviation
`sqrt(mean((v - mean l)^2))`. -/
noncomputable def npStd (l : List ℝ) : ℝ :=
  Real.sqrt (npMean (l.map fun v => (v - npMean l) ^ 2))

/-- `np.diff`: consecutive differences `l[i+1] - l[i]`. -/
def npDiff (l : List ℝ) : List ℝ :=
  (l.zip l.tail).map fun p => p.2 - p.1

/-- Python `int()` applied to a float: truncation toward zero. -/
noncomputable def pyInt (v : ℝ) : ℤ := if 0 ≤ v then ⌊v⌋ else ⌈v⌉

/-- Python `round(x, 2)`: round to hundredths.  (Python breaks ties to even
on binary floats; `round` here breaks ties upward.  No theorem below
evaluates this at a tie.) -/
noncomputable def pyRound2 (v : ℝ) : ℝ := (round (v * 100) : ℤ) / 100

/-- The loop `for i in range(1, len(df))` building
`sqrt((x_i - x_(i-1))^2 + (y_i - y_(i-1))^2)` for each consecutive pair. -/
noncomputable def distances (df : List Sample) : List ℝ :=
  (df.zip df.tail).map fun p =>
    Real.sqrt ((p.2.x - p.1.x) ^ 2 + (p.2.y - p.1.y) ^ 2)

/-- `df['elapsedTime(seconds)'].max() - df['elapsedTime(seconds)'].min()`. -/
noncomputable def duration (df : List Sample) : ℝ :=
  listMax (df.map Sample.elapsedTime) - listMin (df.map Sample.elapsedTime)

/-- `np.mean(distances) if distances else 0`. -/
noncomputable def avg_distance (df : List Sample) : ℝ :=
  if (distances df).isEmpty then 0 else npMean (distances df)

/-- `np.sum(distances) if distances else 0`. -/
noncomputable def total_distance (df : List Sample) : ℝ :=
  if (distances df).isEmpty then 0 else (distances df).sum

/-- `(df['x'].max() - df['x'].min()) * (df['y'].max() - df['y'].min())`. -/
noncomputable def coverage_area (df : List Sample) : ℝ :=
  (listMax (df.map Sample.x) - listMin (df.map Sample.x)) *
    (listMax (df.map Sample.y) - listMin (df.map Sample.y))

/-- `np.diff(df['elapsedTime(seconds)'].values)`. -/
def time_diffs (df : List Sample) : List ℝ :=
  npDiff (df.map Sample.elapsedTime)

/-- `np.array(distances) / time_diffs` (elementwise; both have length
`n - 1`).  A zero delta gives inf/NaN in NumPy; in this exact model `x / 0
= 0`, and no theorem below evaluates a speed at a zero delta. -/
noncomputable def speeds (df : List Sample) : List ℝ :=
  List.zipWith (fun d t => d / t) (distances df) (time_diffs df)

/-- The stability block: `100 - min(np.std(speeds) * 10, 100)` when
`len(distances) > 1`, else the neutral default `50`. -/
noncomputable def stability (df : List Sample) : ℝ :=
  if 1 < (distances df).length then
    100 - min (npStd (speeds df) * 10) 100
  else 50

/-- The `duration_score` branch of `calculate_attention_score`. -/
noncomputable def duration_score (duration : ℝ) : ℝ :=
  if 10 ≤ duration ∧ duration ≤ 30 then 25
  else if 30 < duration then 25 - min ((duration - 30) * 0.5) 15
  else duration * 2.5

/-- `stability_score = min(stability * 0.3, 20)`. -/
noncomputable def stability_score (stability : ℝ) : ℝ :=
  min (stability * 0.3) 20

/-- `quality_score = min(points / 100, 1) * 15`. -/
noncomputable def quality_score (points : ℝ) : ℝ :=
  min (points / 100) 1 * 15

/-- The `movement_score` branch of `calculate_attention_score`. -/
noncomputable def movement_score (avg_movement : ℝ) : ℝ :=
  if 50 ≤ avg_movement ∧ avg_movement ≤ 200 then 10
  else max (10 - |avg_movement - 125| * 0.05) 0

/-- `calculate_attention_score(duration, avg_movement, stability, coverage,
points)`: base 50 plus the four sub-scores, clamped by
`max(1, min(100, total_score))`.  `coverage` is accepted and ignored, as in
the source. -/
noncomputable def calculate_attention_score
    (duration avg_movement stability coverage points : ℝ) : ℝ :=
  max 1 (min 100
    (50 + duration_score duration + stability_score stability +
      quality_score points + movement_score avg_movement))

/-- `get_score_description(score)`: the five-bucket label chain.  The source
applies it to the float score before integer conversion. -/
noncomputable def get_score_description (score : ℝ) : String :=
  if 85 ≤ score then "Excellent attention patterns"
  else if 70 ≤ score then "Good attention stability"
  else if 55 ≤ score then "Moderate attention focus"
  else if 40 ≤ score then "Needs attention improvement"
  else "Poor attention patterns"

/-- The `result` dictionary of the success branch. -/
structure SuccessData where
  score : ℤ
  total_points : ℕ
  duration_seconds : ℝ
  average_movement : ℝ
  total_movement : ℝ
  stability_score : ℝ
  coverage_area : ℝ
  message : String

/-- The `error_result` dictionary of the except branch. -/
structure FailureData where
  score : ℤ
  error : String
  message : String

/-- The JSON object returned by `analyze_gaze_data`: one of the two
dictionary shapes (`json.dumps` of either is a well-formed object). -/
inductive AnalysisResult where
  | success : SuccessData → AnalysisResult
  | failure : FailureData → AnalysisResult

/-- `analyze_gaze_data(csv_data)`.  `parse` stands for the pandas parsing
stage (`pd.read_csv` and the column lookups): `Except.error e` is an
exception with text `str(e) = e` escaping from any stage, landing in the
`except` branch; on `Except.ok df` the rest of the `try` body runs (it is
total in this exact-arithmetic model). -/
noncomputable def analyze_gaze_data
    (parse : String → Except String (List Sample)) (csv_data : String) :
    AnalysisResult :=
  match parse csv_data with
  | .error e =>
      .failure { score := 0, error := e, message := "Analysis failed" }
  | .ok df =>
      let attention_score :=
        calculate_attention_score (duration df) (avg_distance df)
          (stability df) (coverage_area df) (df.length : ℝ)
      .success
        { score := pyInt attention_score
          total_points := df.length
          duration_seconds := pyRound2 (duration df)
          average_movement := pyRound2 (avg_distance df)
          total_movement := pyRound2 (total_distance df)
          stability_score := pyRound2 (stability df)
          coverage_area := pyRound2 (coverage_area df)
          message := "Analysis completed: " ++
            get_score_description attention_score }

/-! ## Helper lemmas -/

/-- The clamp `max(1, min(100, total_score))` keeps the float score in
`[1, 100]`. -/
theorem calc_score_mem (a b c e f : ℝ) :
    1 ≤ calculate_attention_score a b c e f ∧
      calculate_attention_score a b c e f ≤ 100 := by
  unfold calculate_attention_score
  exact ⟨le_max_left _ _, max_le (by norm_num) (min_le_left _ _)⟩

/-- Truncating a float in `[1, 100]` with `int()` gives an integer in
`[1, 100]`. -/
theorem pyInt_mem (v : ℝ) (h1 : 1 ≤ v) (h2 : v ≤ 100) :
    1 ≤ pyInt v ∧ pyInt v ≤ 100 := by
  unfold pyInt
  rw [if_pos (le_trans zero_le_one h1)]
  refine ⟨Int.le_floor.mpr (by exact_mod_cast h1), ?_⟩
  have h := (Int.floor_le v).trans h2
  exact_mod_cast h

/-- `stability` is never negative: the subtracted term is `min(_, 100)`. -/
theorem stability_lower_bound (df : List Sample) : 0 ≤ stability df := by
  unfold stability
  split
  · have h : min (npStd (speeds df) * 10) 100 ≤ 100 := min_le_right _ _
    linarith
  · norm_num

/-- `stability` never exceeds 100: the subtracted `min` term is nonnegative
because a standard deviation is a square root. -/
theorem stability_upper_bound (df : List Sample) : stability df ≤ 100 := by
  unfold stability
  split
  · have h0 : 0 ≤ npStd (speeds df) := Real.sqrt_nonneg _
    have h : 0 ≤ min (npStd (speeds df) * 10) 100 :=
      le_min (by linarith) (by norm_num)
    linarith
  · norm_num

/-! ## Claim theorems -/

/-- Claim C1: on the Success variant the reported score is an integer in
`[1, 100]` (the float total is clamped to `[1, 100]` by
`max(1, min(100, ·))` and then truncated by `int()`), and on the Failure
variant the score is exactly `0`. -/
theorem score_range_by_variant
    (parse : String → Except String (List Sample)) (s : String) :
    (match analyze_gaze_data parse s with
     | .success d => 1 ≤ d.score ∧ d.score ≤ 100
     | .failure f => f.score = 0) := by
  unfold analyze_gaze_data
  cases hp : parse s with
  | error e => exact rfl
  | ok df =>
      dsimp only
      exact pyInt_mem _ (calc_score_mem _ _ _ _ _).1 (calc_score_mem _ _ _ _ _).2

/-- Claim C4 counterexample: the claim that stability "for some input is
negative (arbitrarily negative for large speed variance)" is false — no
input series gives a negative stability, since the scaled standard
deviation is capped at 100 before it is subtracted from 100. -/
theorem no_negative_stability : ¬ ∃ df : List Sample, stability df < 0 := by
  intro ⟨df, h⟩
  have h0 : (0:ℝ) ≤ stability df := by
    unfold stability
    split
    · have hm : min (npStd (speeds df) * 10) 100 ≤ 100 := min_le_right _ _
      linarith
    · norm_num
  linarith

/-- Claim C4 (amended): the stability statistic never exceeds 100, and it is
also never negative — it always lies in `[0, 100]`, because the scaled
standard deviation is capped at 100 before being subtracted from 100. -/
theorem stability_in_unit_range (df : List Sample) :
    0 ≤ stability df ∧ stability df ≤ 100 :=
  ⟨stability_lower_bound df, stability_upper_bound df⟩

/-- Claim C5: the piecewise boundary cases of the score calculator —
`duration_score 10 = duration_score 30 = 25`,
`movement_score 50 = movement_score 200 = 10`,
`quality_score 100 = 15`, `quality_score 0 = 0`. -/
theorem subscore_boundary_cases :
    duration_score 10 = 25 ∧ duration_score 30 = 25 ∧
    movement_score 50 = 10 ∧ movement_score 200 = 10 ∧
    quality_score 100 = 15 ∧ quality_score 0 = 0 := by
  refine ⟨?_, ?_, ?_, ?_, ?_, ?_⟩ <;>
    norm_num [duration_score, movement_score, quality_score, min_def]

/-- Claim C9: the pipeline is deterministic and stateless — invoking it
twice on character-identical input text yields identical output (it is a
pure function of the input text, with no hidden state). -/
theorem pipeline_deterministic
    (parse : String → Except String (List Sample)) (s₁ s₂ : String)
    (h : s₁ = s₂) :
    analyze_gaze_data parse s₁ = analyze_gaze_data parse s₂ := by rw [h]

/-- Witness for C9 at a concrete input. -/
theorem pipeline_deterministic_witness :
    analyze_gaze_data (fun _ => .error "No columns to parse from file") "" =
      analyze_gaze_data (fun _ => .error "No columns to parse from file") "" :=
  pipeline_deterministic (fun _ => .error "No columns to parse from file")
    "" "" rfl

/-- Claim C6: with fewer than 2 rows the distance sequence is empty, so
`avg_distance = 0`, `total_distance = 0`, and `stability = 50`. -/
theorem few_rows_stats (df : List Sample) (h : df.length < 2) :
    avg_distance df = 0 ∧ total_distance df = 0 ∧ stability df = 50 := by
  have hd : distances df = [] := by
    cases df with
    | nil => rfl
    | cons a tl =>
        cases tl with
        | nil => rfl
        | cons b tl2 => simp [List.length] at h; omega
  refine ⟨?_, ?_, ?_⟩ <;> simp [avg_distance, total_distance, stability, hd]

/-- Witness for C6 at the empty series. -/
theorem few_rows_stats_witness :
    ([] : List Sample).length < 2 ∧
      (avg_distance ([] : List Sample) = 0 ∧
        total_distance ([] : List Sample) = 0 ∧
        stability ([] : List Sample) = 50) :=
  ⟨by decide, few_rows_stats [] (by decide)⟩

/-- Claim C2: any error escaping any stage of the `try` body (e.g. the
`KeyError` text `'y'` from a missing `y` column) is caught at the single
top-level boundary and turned into the Failure variant with score `0`, the
error's (non-empty) description as `error`, and message exactly
`"Analysis failed"`; the pipeline is a total function, so no exception
propagates and the output is always one of the two well-formed JSON
shapes. -/
theorem errors_become_failure
    (parse : String → Except String (List Sample)) (s e : String)
    (hp : parse s = .error e) (hne : e ≠ "") :
    ∃ f : FailureData, analyze_gaze_data parse s = .failure f ∧
      f.score = 0 ∧ f.error = e ∧ f.error ≠ "" ∧
      f.message = "Analysis failed" := by
  refine ⟨{ score := 0, error := e, message := "Analysis failed" },
    ?_, rfl, rfl, hne, rfl⟩
  unfold analyze_gaze_data
  rw [hp]

/-- Witness for C2: a parse stage that raises the `KeyError 'y'` of a
missing `y` column. -/
theorem errors_become_failure_witness :
    (fun (_ : String) => (Except.error "'y'" : Except String (List Sample)))
        "elapsedTime(seconds),x\n0.0,1.0" = .error "'y'" ∧
      ∃ f : FailureData,
        analyze_gaze_data
            (fun _ => (Except.error "'y'" : Except String (List Sample)))
            "elapsedTime(seconds),x\n0.0,1.0" = .failure f ∧
          f.score = 0 ∧ f.error = "'y'" ∧ f.error ≠ "" ∧
          f.message = "Analysis failed" :=
  ⟨rfl, errors_become_failure (fun _ => .error "'y'")
    "elapsedTime(seconds),x\n0.0,1.0" "'y'" rfl (by decide)⟩

/-- Claim C7: on the integer domain `[1, 100]`, the label buckets of
`get_score_description` are exactly the table rows — `[85, 100]` Excellent,
`[70, 84]` Good, `[55, 69]` Moderate, `[40, 54]` Needs improvement,
`[1, 39]` Poor — mutually exclusive and exhaustive with no gaps or
overlaps. -/
theorem label_partitions (s : ℤ) (h1 : 1 ≤ s) (h2 : s ≤ 100) :
    (get_score_description (s : ℝ) = "Excellent attention patterns" ↔
      85 ≤ s ∧ s ≤ 100) ∧
    (get_score_description (s : ℝ) = "Good attention stability" ↔
      70 ≤ s ∧ s ≤ 84) ∧
    (get_score_description (s : ℝ) = "Moderate attention focus" ↔
      55 ≤ s ∧ s ≤ 69) ∧
    (get_score_description (s : ℝ) = "Needs attention improvement" ↔
      40 ≤ s ∧ s ≤ 54) ∧
    (get_score_description (s : ℝ) = "Poor attention patterns" ↔
      1 ≤ s ∧ s ≤ 39) := by
  unfold get_score_description
  split_ifs with hA hB hC hD
  · have hA' : (85:ℤ) ≤ s := by exact_mod_cast hA
    exact ⟨iff_of_true rfl ⟨hA', h2⟩,
      iff_of_false (by decide) (by omega),
      iff_of_false (by decide) (by omega),
      iff_of_false (by decide) (by omega),
      iff_of_false (by decide) (by omega)⟩
  · have hA' : ¬ (85:ℤ) ≤ s := by exact_mod_cast hA
    have hB' : (70:ℤ) ≤ s := by exact_mod_cast hB
    exact ⟨iff_of_false (by decide) (by omega),
      iff_of_true rfl ⟨hB', by omega⟩,
      iff_of_false (by decide) (by omega),
      iff_of_false (by decide) (by omega),
      iff_of_false (by decide) (by omega)⟩
  · have hB' : ¬ (70:ℤ) ≤ s := by exact_mod_cast hB
    have hC' : (55:ℤ) ≤ s := by exact_mod_cast hC
    exact ⟨iff_of_false (by decide) (by omega),
      iff_of_false (by decide) (by omega),
      iff_of_true rfl ⟨hC', by omega⟩,
      iff_of_false (by decide) (by omega),
      iff_of_false (by decide) (by omega)⟩
  · have hC' : ¬ (55:ℤ) ≤ s := by exact_mod_cast hC
    have hD' : (40:ℤ) ≤ s := by exact_mod_cast hD
    exact ⟨iff_of_false (by decide) (by omega),
      iff_of_false (by decide) (by omega),
      iff_of_false (by decide) (by omega),
      iff_of_true rfl ⟨hD', by omega⟩,
      iff_of_false (by decide) (by omega)⟩
  · have hD' : ¬ (40:ℤ) ≤ s := by exact_mod_cast hD
    exact ⟨iff_of_false (by decide) (by omega),
      iff_of_false (by decide) (by omega),
      iff_of_false (by decide) (by omega),
      iff_of_false (by decide) (by omega),
      iff_of_true rfl ⟨h1, by omega⟩⟩

/-- Witness for C7 at score 90. -/
theorem label_partitions_witness :
    get_score_description ((90:ℤ) : ℝ) = "Excellent attention patterns" :=
  ((label_partitions 90 (by decide) (by decide)).1).mpr ⟨by decide, by decide⟩

/-- Relabelling with the floor of the score does not change the label: all
four thresholds are integers, so `T ≤ v ↔ T ≤ ⌊v⌋`. -/
theorem get_score_description_floor (v : ℝ) :
    get_score_description ((⌊v⌋ : ℤ) : ℝ) = get_score_description v := by
  unfold get_score_description
  rw [show (85:ℝ) = ((85:ℤ):ℝ) by norm_num,
    show (70:ℝ) = ((70:ℤ):ℝ) by norm_num,
    show (55:ℝ) = ((55:ℤ):ℝ) by norm_num,
    show (40:ℝ) = ((40:ℤ):ℝ) by norm_num]
  simp only [Int.cast_le, Int.le_floor]

/-- The success payload produced by a one-row run: score
`int(50 + 0 + 15 + 0.15 + 3.75) = int(68.9) = 68`, all movement statistics
zero, neutral stability 50. -/
noncomputable def singleRowData : SuccessData :=
  { score := 68, total_points := 1, duration_seconds := 0,
    average_movement := 0, total_movement := 0, stability_score := 50,
    coverage_area := 0,
    message := "Analysis completed: " ++ get_score_description (689/10) }

/-- Evaluation of the pipeline on a parse result with exactly one row. -/
theorem analyze_single_row
    (parse : String → Except String (List Sample)) (s : String) (t x y : ℝ)
    (hp : parse s = .ok [⟨t, x, y⟩]) :
    analyze_gaze_data parse s = .success singleRowData := by
  have hdist : distances [(⟨t, x, y⟩ : Sample)] = [] := rfl
  have hdur : duration [(⟨t, x, y⟩ : Sample)] = 0 := by
    simp [duration, listMax, listMin]
  have havg : avg_distance [(⟨t, x, y⟩ : Sample)] = 0 := by
    simp [avg_distance, hdist]
  have htot : total_distance [(⟨t, x, y⟩ : Sample)] = 0 := by
    simp [total_distance, hdist]
  have hcov : coverage_area [(⟨t, x, y⟩ : Sample)] = 0 := by
    simp [coverage_area, listMax, listMin]
  have hstab : stability [(⟨t, x, y⟩ : Sample)] = 50 := by
    simp [stability, hdist]
  have hcalc : calculate_attention_score 0 0 50 0 1 = 689/10 := by
    unfold calculate_attention_score duration_score stability_score
      quality_score movement_score
    norm_num [min_def, max_def, abs_of_nonpos]
  have hpi : pyInt (689/10 : ℝ) = 68 := by
    unfold pyInt
    rw [if_pos (by norm_num : (0:ℝ) ≤ 689/10), Int.floor_eq_iff]
    norm_num
  have hr0 : pyRound2 (0 : ℝ) = 0 := by simp [pyRound2]
  have hr50 : pyRound2 (50 : ℝ) = 50 := by
    unfold pyRound2
    rw [show (50:ℝ) * 100 = ((5000:ℤ):ℝ) by norm_num, round_intCast]
    norm_num
  unfold analyze_gaze_data
  rw [hp]
  dsimp only
  rw [hdur, havg, htot, hcov, hstab, List.length_singleton]
  unfold singleRowData
  norm_num [hcalc, hpi, hr0, hr50]

/-- Claim C10: a parsed table with exactly one numeric row yields the
Success variant with score 68, total_points 1, and all of
duration/average movement/total movement/coverage 0 with stability 50,
regardless of the row's values (50 + 0 + 15 + 0.15 + 3.75 = 68.9,
truncated to 68). -/
theorem single_row_success
    (parse : String → Except String (List Sample)) (s : String) (t x y : ℝ)
    (hp : parse s = .ok [⟨t, x, y⟩]) :
    ∃ d : SuccessData, analyze_gaze_data parse s = .success d ∧
      d.score = 68 ∧ d.total_points = 1 ∧ d.duration_seconds = 0 ∧
      d.average_movement = 0 ∧ d.total_movement = 0 ∧
      d.stability_score = 50 ∧ d.coverage_area = 0 :=
  ⟨singleRowData, analyze_single_row parse s t x y hp,
    rfl, rfl, rfl, rfl, rfl, rfl, rfl⟩

/-- Witness for C10 at the concrete row `(0, 0, 0)`. -/
theorem single_row_success_witness :
    ∃ d : SuccessData,
      analyze_gaze_data
          (fun _ => (.ok [⟨0, 0, 0⟩] : Except String (List Sample))) "" =
        .success d ∧
      d.score = 68 ∧ d.total_points = 1 ∧ d.duration_seconds = 0 ∧
      d.average_movement = 0 ∧ d.total_movement = 0 ∧
      d.stability_score = 50 ∧ d.coverage_area = 0 :=
  single_row_success (fun _ => .ok [⟨0, 0, 0⟩]) "" 0 0 0 rfl

/-- Claim C8: on every Success result the message is
`"Analysis completed: "` followed by the label of the reported integer
score: although the source evaluates `get_score_description` on the
clamped float before truncation, the label agrees with the one evaluated
on the truncated integer score, because all bucket thresholds are
integers. -/
theorem success_message_label
    (parse : String → Except String (List Sample)) (s : String)
    (d : SuccessData) (h : analyze_gaze_data parse s = .success d) :
    d.message = "Analysis completed: " ++
      get_score_description (d.score : ℝ) := by
  unfold analyze_gaze_data at h
  cases hp : parse s with
  | error e => rw [hp] at h; simp at h
  | ok df =>
      rw [hp] at h
      dsimp only at h
      injection h with h'
      subst h'
      dsimp only
      have h1 := (calc_score_mem (duration df) (avg_distance df)
        (stability df) (coverage_area df) (df.length : ℝ)).1
      have h0 : (0:ℝ) ≤ calculate_attention_score (duration df)
          (avg_distance df) (stability df) (coverage_area df)
          (df.length : ℝ) := le_trans zero_le_one h1
      have hpy : pyInt (calculate_attention_score (duration df)
          (avg_distance df) (stability df) (coverage_area df)
          (df.length : ℝ)) = ⌊calculate_attention_score (duration df)
          (avg_distance df) (stability df) (coverage_area df)
          (df.length : ℝ)⌋ := by
        unfold pyInt; exact if_pos h0
      rw [hpy, get_score_description_floor]

/-- Witness for C8 at the one-row success payload. -/
theorem success_message_label_witness :
    singleRowData.message = "Analysis completed: " ++
      get_score_description (singleRowData.score : ℝ) :=
  success_message_label (fun _ => .ok [⟨0, 0, 0⟩]) "" singleRowData
    (analyze_single_row (fun _ => .ok [⟨0, 0, 0⟩]) "" 0 0 0 rfl)
